import Mathlib

/-!
Shallow embedding of the x-to-day-one-converter repository (files
`convert.py` and `x-to-dayone.py`) and verification of its specification.

The converter reads a Twitter/X export archive, turns each tweet into a
DayOne journal entry, resolves and copies media files into a staging
directory, serializes the journal with a custom escaping transform
(`DayOneJSONEncoder`) and packages everything as a zip archive.

Modelling conventions:
* Python strings are Lean `String` (processed through their `.data` char
  lists so that every operation is structurally recursive and
  kernel-evaluable);
* external standard-library functions that the code calls but does not
  define (`hashlib.md5(...).hexdigest()`, `json.loads`, `datetime.strptime`
  composed with `strftime`, `uuid.uuid4`) are universally quantified
  function parameters of the embedding — the theorems hold for every
  choice of these functions, and witnesses instantiate them concretely;
* the filesystem is a list of path strings; `shutil.copy2` is modelled as
  byte-faithful (the staged copy carries exactly the source bytes);
* Python `dict` field access is an `Option` lookup: a missing key is
  `none` and raises `PyError.keyError` where the code subscripts directly;
* fallible Python code returns `Except PyError`.
-/

namespace XDayOne

/-- Scalar JSON values as Python sees them after `json.loads`: the size
entries `sizes.large.h` / `sizes.large.w` of a Twitter archive are JSON
strings (which is why `convert.py` applies `int(...)` to them), but the
model also admits numbers. -/
inductive PyVal where
  | num (n : Int)
  | str (s : String)
deriving DecidableEq

/-- Python exceptions that `convert.py` can raise.  `fileNotFoundError` is
the builtin raised by `open` on a missing file, `jsonDecodeError` is
`json.JSONDecodeError`, `valueError` is raised by `int(...)` on a
non-numeric string, `timestampParseError` is the `ValueError` raised by
`datetime.strptime` on a non-matching timestamp, and `keyError k` is the
`KeyError` for a missing dict key `k`. -/
inductive PyError where
  | keyError (k : String)
  | valueError
  | timestampParseError
  | fileNotFoundError
  | jsonDecodeError
deriving DecidableEq

/-- Python `str.split(sep)` (single-character separator, keeping empty
parts), auxiliary accumulator form. -/
def splitCharAux (sep : Char) : List Char → List Char → List (List Char)
  | [], acc => [acc.reverse]
  | d :: ds, acc =>
    if d = sep then acc.reverse :: splitCharAux sep ds []
    else splitCharAux sep ds (d :: acc)

/-- Python `str.split(sep)` for a single-character separator. -/
def splitChar (sep : Char) (s : List Char) : List (List Char) :=
  splitCharAux sep s []

/-- Python `media_url.split('/')[-1]` from `find_media_file`. -/
def basenameOfUrl (url : String) : String :=
  ⟨(splitChar '/' url.data).getLastD []⟩

/-- Python `name.split('.')[0]` from `find_media_file` (everything before
the first dot). -/
def stemOfName (name : String) : String :=
  ⟨(splitChar '.' name.data).headD []⟩

/-- Boolean list prefix test (chars), used to model string matching. -/
def listIsPref : List Char → List Char → Bool
  | [], _ => true
  | _ :: _, [] => false
  | a :: as, b :: bs => if a = b then listIsPref as bs else false

/-- Boolean substring test on char lists: some suffix of `s` starts with
`pat`. -/
def listHasInfix (pat : List Char) : List Char → Bool
  | [] => pat.isEmpty
  | c :: cs => listIsPref pat (c :: cs) || listHasInfix pat cs

/-- Python `pat in s` for strings. -/
def strContains (s pat : String) : Bool :=
  listHasInfix pat.data s.data

/-- Fuel-driven core of Python `str.replace(pat, rep)`: leftmost-first,
non-overlapping.  One unit of fuel is spent per step, and each step
consumes at least one character, so fuel `s.length` is always enough. -/
def replaceFuel (pat rep : List Char) : Nat → List Char → List Char
  | 0, s => s
  | _ + 1, [] => []
  | n + 1, c :: cs =>
    if listIsPref pat (c :: cs) && !pat.isEmpty then
      rep ++ replaceFuel pat rep n (List.drop (pat.length - 1) cs)
    else
      c :: replaceFuel pat rep n cs

/-- Python `str.replace(pat, rep)` on char lists (for nonempty `pat`). -/
def pyReplaceData (pat rep s : List Char) : List Char :=
  replaceFuel pat rep s.length s

/-- Python `s.replace(pat, rep)` on strings. -/
def pyReplace (s pat rep : String) : String :=
  ⟨pyReplaceData pat.data rep.data s.data⟩

/-- The transform of `DayOneJSONEncoder` (`convert.py` lines 17-23): each
serialized chunk has every literal occurrence of `dayone-moment://`
replaced by `dayone-moment:\/\/`.  Chunk-wise replacement over the whole
stream equals the replacement over the concatenated serialized text. -/
def DayOneJSONEncoder.encode (s : String) : String :=
  pyReplace s "dayone-moment://" "dayone-moment:\\/\\/"

/-- Hex digit character (lowercase), for the `\u00XX` escapes of
`json.dumps`. -/
def hexDigitChar (n : Nat) : Char :=
  if n < 10 then Char.ofNat (48 + n % 16) else Char.ofNat (87 + n % 16)

/-- JSON string escaping of one character as `json.dumps` performs it with
its default `ensure_ascii=True` (characters of the Basic Multilingual
Plane; the converter's locator tokens are plain ASCII).  Forward slashes
are not escaped by `json.dumps`. -/
def jsonEscapeChar (c : Char) : List Char :=
  if c = '"' then ['\\', '"']
  else if c = '\\' then ['\\', '\\']
  else if c = '\n' then ['\\', 'n']
  else if c = '\t' then ['\\', 't']
  else if c = '\r' then ['\\', 'r']
  else if c = '\x08' then ['\\', 'b']
  else if c = '\x0c' then ['\\', 'f']
  else if c.toNat < 32 || c.toNat > 126 then
    ['\\', 'u', hexDigitChar ((c.toNat / 4096) % 16),
     hexDigitChar ((c.toNat / 256) % 16),
     hexDigitChar ((c.toNat / 16) % 16), hexDigitChar (c.toNat % 16)]
  else [c]

/-- JSON string-body escaping of `json.dumps` (default options). -/
def jsonEscapeString (s : String) : String :=
  ⟨(s.data.map jsonEscapeChar).flatten⟩

/-- Serialized JSON form of one string value, as it appears inside the
document text produced by `json.dump`. -/
def serializeTextField (s : String) : String :=
  "\"" ++ jsonEscapeString s ++ "\""

/-- Inline reference token built by `process_media` for a photo
(`convert.py` line 120): double-slash locator. -/
def photoMomentUrl (md5 : String) : String :=
  "![](dayone-moment://" ++ md5 ++ ")"

/-- Inline reference token built by `process_media` for a video
(`convert.py` line 118): single-slash `/video/` locator. -/
def videoMomentUrl (md5 : String) : String :=
  "![](dayone-moment:/video/" ++ md5 ++ ")"

/-- Python truthiness of a JSON scalar (`if height and width:` in
`process_media`): a number is truthy iff non-zero, a string iff
non-empty. -/
def PyVal.truthy : PyVal → Bool
  | .num n => !(n == 0)
  | .str s => !s.data.isEmpty

/-- Truthiness of a possibly-missing value (`dict.get` returning `None`
is falsy). -/
def pyTruthy : Option PyVal → Bool
  | none => false
  | some v => v.truthy

/-- Value of a decimal digit character. -/
def digitVal (c : Char) : Option Nat :=
  if '0' ≤ c ∧ c ≤ '9' then some (c.toNat - 48) else none

/-- Accumulating decimal parse over a digit list. -/
def digitsToNatAux : List Char → Nat → Option Nat
  | [], acc => some acc
  | c :: cs, acc =>
    match digitVal c with
    | some d => digitsToNatAux cs (acc * 10 + d)
    | none => none

/-- Python `int(s)` on the string forms that occur in archives: an
optional sign followed by decimal digits (whitespace/underscore tolerance
of CPython is not needed by any claim).  `none` models the `ValueError`
raised on any other string. -/
def pyIntOfChars : List Char → Option Int
  | [] => none
  | '-' :: cs =>
    match cs with
    | [] => none
    | _ => (digitsToNatAux cs 0).map fun n => -(n : Int)
  | '+' :: cs =>
    match cs with
    | [] => none
    | _ => (digitsToNatAux cs 0).map fun n => (n : Int)
  | cs => (digitsToNatAux cs 0).map fun n => (n : Int)

/-- Python `int(v)` on a JSON scalar: identity on a number, decimal parse
on a string, `ValueError` (`none`) otherwise. -/
def PyVal.toIntOpt : PyVal → Option Int
  | .num n => some n
  | .str s => pyIntOfChars s.data

/-- One media entity of a tweet (`tweet.extended_entities.media[i]`), the
keys `convert.py` touches.  `order` and `id_str` are the keys the entry
converter writes into the item before delegating to `process_media`
(`convert.py` lines 145-148); `sizes_large_h` / `sizes_large_w` model
`media_item.get('sizes', {}).get('large', {}).get('h' / 'w')`. -/
structure MediaItem where
  media_url_https : Option String
  type : Option String
  id_str : Option String
  order : Option Nat
  sizes_large_h : Option PyVal
  sizes_large_w : Option PyVal
deriving DecidableEq

/-- The DayOne media metadata dict built by `process_media`
(`convert.py` lines 93-105).  `height`/`width` are `none` when the keys
are omitted from the dict. -/
structure MediaMetadata where
  identifier : String
  date : String
  type : String
  md5 : String
  height : Option Int
  width : Option Int
deriving DecidableEq

/-- Everything `process_media` produces for one successfully processed
item: the metadata dict, the inline moment token, the staging destination
path, and the bytes placed there (`shutil.copy2` is byte-faithful, so the
staged bytes are exactly the source file's bytes). -/
structure ProcessedMedia where
  meta : MediaMetadata
  moment_url : String
  dest : String
  destBytes : List Nat
deriving DecidableEq

/-- One parsed tweet record (the fields `convert.py` reads).  `media` is
`some l` when `extended_entities.media` is present, `hashtags` is the
list of `entities.hashtags[i].text` when `entities.hashtags` is
present. -/
structure Tweet where
  created_at : String
  full_text : String
  id_str : Option String
  media : Option (List MediaItem)
  hashtags : Option (List String)
deriving DecidableEq

/-- One DayOne journal entry as built by `convert_tweet_to_entry`. -/
structure Entry where
  creationDate : String
  uuid : String
  starred : Bool
  text : String
  tags : List String
  photos : List MediaMetadata
  videos : List MediaMetadata
deriving DecidableEq

/-- Fuel-driven glob matcher for `pathlib.Path.glob` patterns restricted
to the `*` wildcard (the only metacharacter the converter's patterns
use); every other character matches literally.  Each step consumes
pattern or subject, so `pat.length + s.length + 1` fuel always
suffices. -/
def globMatchFuel : Nat → List Char → List Char → Bool
  | 0, _, _ => false
  | _ + 1, [], s => s.isEmpty
  | n + 1, p :: ps, s =>
    if p = '*' then
      globMatchFuel n ps s ||
        (match s with
         | [] => false
         | _ :: cs => globMatchFuel n (p :: ps) cs)
    else
      match s with
      | [] => false
      | c :: cs => if p = c then globMatchFuel n ps cs else false

/-- Glob match of a file name against a pattern (see `globMatchFuel`). -/
def globMatch (pat s : List Char) : Bool :=
  globMatchFuel (pat.length + s.length + 1) pat s

/-- First candidate name of `find_media_file`:
`f"{tweet_id}-{media_url.split('/')[-1]}"`. -/
def mediaName1 (item : MediaItem) (url : String) : String :=
  item.id_str.getD "" ++ "-" ++ basenameOfUrl url

/-- Second candidate name of `find_media_file`: the URL basename alone. -/
def mediaName2 (url : String) : String :=
  basenameOfUrl url

/-- Third candidate of `find_media_file`, a glob pattern:
`f"{tweet_id}-{media_url.split('/')[-1].split('.')[0]}.*"`. -/
def mediaGlob3 (item : MediaItem) (url : String) : String :=
  item.id_str.getD "" ++ "-" ++ stemOfName (basenameOfUrl url) ++ ".*"

/-- The `possible_names` list of `find_media_file` (lines 52-59). -/
def mediaFileNames (item : MediaItem) (url : String) : List String :=
  [mediaName1 item url, mediaName2 url, mediaGlob3 item url]

/-- The lookup loop of `find_media_file` (lines 61-72): names containing
`*` are resolved by glob over the media directory (first hit in directory
order, `matches[0]`), other names by an existence test; the first
successful candidate wins.  The media directory is the list of file
names it contains, in enumeration order; no file content is read. -/
def tryNames (files : List String) : List String → Option String
  | [] => none
  | n :: rest =>
    if '*' ∈ n.data then
      match (files.filter fun f => globMatch n.data f.data).head? with
      | some f => some f
      | none => tryNames files rest
    else if n ∈ files then some n
    else tryNames files rest

/-- `find_media_file` (lines 46-72).  Subscripting the missing
`media_url_https` key raises `KeyError`; `id_str` is read with
`.get('id_str', '')` and so never raises. -/
def find_media_file (files : List String) (item : MediaItem) :
    Except PyError (Option String) :=
  match item.media_url_https with
  | none => .error (.keyError "media_url_https")
  | some url => .ok (tryNames files (mediaFileNames item url))

/-- `process_media` (lines 74-122), parametrized by the environment: the
hash `md5hex` models `hashlib.md5(...).hexdigest()`, `fileBytes` maps a
path to the bytes `open(path,'rb').read()` returns, `files` is the media
directory listing, and `dateStr` is the already-formatted tweet timestamp
(`tweet_date.strftime(...)`).  Returns `.ok none` on the warn-and-skip
path (file not resolved, a diagnostic is recorded), `.ok (some _)` on
success, and an exception otherwise. -/
def process_media (md5hex : List Nat → String) (fileBytes : String → List Nat)
    (files : List String) (item : MediaItem) (dateStr : String) :
    Except PyError (Option ProcessedMedia) :=
  match find_media_file files item with
  | .error e => .error e
  | .ok none => .ok none
  | .ok (some path) =>
    match item.type with
    | none => .error (.keyError "type")
    | some ty =>
      match
        (if pyTruthy item.sizes_large_h && pyTruthy item.sizes_large_w then
          match item.sizes_large_h, item.sizes_large_w with
          | some hv, some wv =>
            match hv.toIntOpt, wv.toIntOpt with
            | some hi, some wi => Except.ok (some hi, some wi)
            | _, _ => Except.error PyError.valueError
          | _, _ => Except.ok (none, none)
        else Except.ok ((none : Option Int), (none : Option Int))) with
      | .error e => .error e
      | .ok (hgt, wid) =>
        .ok (some
          { meta :=
              { identifier := md5hex (fileBytes path)
                date := dateStr
                type := if ty == "video" then "mp4" else "jpg"
                md5 := md5hex (fileBytes path)
                height := hgt
                width := wid }
            moment_url :=
              if ty == "video" then videoMomentUrl (md5hex (fileBytes path))
              else photoMomentUrl (md5hex (fileBytes path))
            dest :=
              (if ty == "video" then "temp_export/videos/"
               else "temp_export/photos/")
                ++ md5hex (fileBytes path)
                ++ (if ty == "video" then ".mp4" else ".jpg")
            destBytes := fileBytes path })

/-- Result of converting one tweet.  Besides the entry itself the model
returns the tweet as it stands after conversion (`convert_tweet_to_entry`
mutates the media items of the loaded tweet in place, lines 145-148) and
the list of successfully processed media (whose staged copies
`create_export_zip` later packages). -/
structure ConvertResult where
  entry : Entry
  taggedTweet : Tweet
  processed : List ProcessedMedia
deriving DecidableEq

/-- Python `sep.join(parts)` (`convert.py` line 166). -/
def pyJoin (sep : String) : List String → String
  | [] => ""
  | [x] => x
  | x :: y :: xs => x ++ sep ++ pyJoin sep (y :: xs)

/-- Concatenation of a list of strings. -/
def concatStr : List String → String
  | [] => ""
  | x :: xs => x ++ concatStr xs

/-- The in-place tagging of media items performed by the conversion loop
(`convert.py` lines 145-148): each item of `extended_entities.media`
receives `order = idx` and `id_str = tweet.get('id_str', '')`, all its
other keys untouched. -/
def tagMediaFrom (tid : String) : Nat → List MediaItem → List MediaItem
  | _, [] => []
  | i, m :: ms =>
    { m with order := some i, id_str := some tid } :: tagMediaFrom tid (i + 1) ms

/-- Tagging starting at ordinal 0. -/
def tagMedia (tid : String) (ms : List MediaItem) : List MediaItem :=
  tagMediaFrom tid 0 ms

/-- The per-tweet media loop (`convert.py` lines 145-158): items are
processed in declared order; a raised exception propagates, a skipped
item (`.ok none`) contributes nothing, successes accumulate in order. -/
def processAll (md5hex : List Nat → String) (fileBytes : String → List Nat)
    (files : List String) (dateStr : String) :
    List MediaItem → Except PyError (List ProcessedMedia)
  | [] => .ok []
  | m :: ms =>
    match process_media md5hex fileBytes files m dateStr with
    | .error e => .error e
    | .ok none => processAll md5hex fileBytes files dateStr ms
    | .ok (some pm) =>
      match processAll md5hex fileBytes files dateStr ms with
      | .error e => .error e
      | .ok pms => .ok (pm :: pms)

/-- `convert_tweet_to_entry` (lines 124-172), parametrized over the
environment.  `parseTS` models `datetime.strptime(s, '%a %b %d %H:%M:%S
%z %Y')` composed with `strftime('%Y-%m-%dT%H:%M:%SZ')`: it yields the
formatted creation date, or `none` for the `ValueError` strptime raises
on a non-matching timestamp.  `uuid` is the fresh `uuid.uuid4().hex
.upper()` of this entry.  Tokens of successful media are joined after the
tweet text with `'\n\n'.join`; metadata dicts are divided into the photo
and the video list by their `type` field. -/
def convert_tweet_to_entry (md5hex : List Nat → String)
    (fileBytes : String → List Nat) (parseTS : String → Option String)
    (files : List String) (uuid : String) (t : Tweet) :
    Except PyError ConvertResult :=
  match parseTS t.created_at with
  | none => .error .timestampParseError
  | some dateStr =>
    match t.media with
    | none =>
      .ok { entry :=
              { creationDate := dateStr, uuid := uuid, starred := false
                text := t.full_text, tags := t.hashtags.getD []
                photos := [], videos := [] }
            taggedTweet := t, processed := [] }
    | some ms =>
      match processAll md5hex fileBytes files dateStr
          (tagMedia (t.id_str.getD "") ms) with
      | .error e => .error e
      | .ok pms =>
        .ok { entry :=
                { creationDate := dateStr, uuid := uuid, starred := false
                  text := pyJoin "\n\n" (t.full_text :: pms.map fun pm => pm.moment_url)
                  tags := t.hashtags.getD []
                  photos := (pms.filter fun pm => !(pm.meta.type == "mp4")).map fun pm => pm.meta
                  videos := (pms.filter fun pm => pm.meta.type == "mp4").map fun pm => pm.meta }
              taggedTweet := { t with media := some (tagMedia (t.id_str.getD "") ms) }
              processed := pms }

/-- Python whitespace for `str.strip()` and the regex class `\s`. -/
def pyIsSpace (c : Char) : Bool :=
  c = ' ' || c = '\t' || c = '\n' || c = '\r' || c = '\x0b' || c = '\x0c'

/-- Python `str.strip()` with default whitespace. -/
def pyStrip (s : String) : String :=
  ⟨((s.data.dropWhile pyIsSpace).reverse.dropWhile pyIsSpace).reverse⟩

/-- Match a literal character sequence, returning the remainder. -/
def matchLit : List Char → List Char → Option (List Char)
  | [], s => some s
  | _ :: _, [] => none
  | l :: ls, c :: cs => if c = l then matchLit ls cs else none

/-- Match one arbitrary character (the regex `.`, which in Python does
not match a newline). -/
def dropOneAny : List Char → Option (List Char)
  | [] => none
  | c :: cs => if c = '\n' then none else some cs

/-- Anchored match of the regex `window.YTD.tweets.part0\s*=\s*` used by
`load_twitter_data` (line 42); the dots are the regex any-character. -/
def matchAssignHead (s : List Char) : Option (List Char) :=
  (matchLit "window".data s).bind fun s1 =>
  (dropOneAny s1).bind fun s2 =>
  (matchLit "YTD".data s2).bind fun s3 =>
  (dropOneAny s3).bind fun s4 =>
  (matchLit "tweets".data s4).bind fun s5 =>
  (dropOneAny s5).bind fun s6 =>
  (matchLit "part0".data s6).bind fun s7 =>
  match s7.dropWhile pyIsSpace with
  | '=' :: s9 => some (s9.dropWhile pyIsSpace)
  | _ => none

/-- `re.sub(r'^window.YTD.tweets.part0\s*=\s*', '', s)`: remove the
assignment wrapper if it matches at the start, otherwise return the text
unchanged (`re.sub` with no match is the identity). -/
def stripTweetsWrapper (s : String) : String :=
  match matchAssignHead s.data with
  | some r => ⟨r⟩
  | none => s

/-- `load_twitter_data` (lines 35-44).  `tweetsFile` is the content of
`data/tweets.js` when the file exists and `none` when it is missing
(`open` then raises `FileNotFoundError`); `jsonParse` models `json.loads`
restricted to the expected array-of-tweet-objects shape (`none` for the
`json.JSONDecodeError` raised on invalid JSON).  On success the parsed
list is returned (stored into `self.tweets`); nothing else is read or
written. -/
def load_twitter_data (jsonParse : String → Option (List Tweet))
    (tweetsFile : Option String) : Except PyError (List Tweet) :=
  match tweetsFile with
  | none => .error .fileNotFoundError
  | some content =>
    match jsonParse (stripTweetsWrapper (pyStrip content)) with
    | none => .error .jsonDecodeError
    | some ts => .ok ts

/-- The three staging directories of `create_export_zip`
(lines 180-182). -/
def tempDirs : List String :=
  ["temp_export", "temp_export/photos", "temp_export/videos"]

/-- A path inside the staging tree (equal to the staging root, or below
it). -/
def underTemp (p : String) : Bool :=
  decide (p = "temp_export") || listIsPref "temp_export/".data p.data

/-- `mkdir(parents=True, exist_ok=True)` of the three staging directories
(lines 180-182) on a filesystem modelled as the list of existing paths:
missing directories are added, every pre-existing path is retained
untouched. -/
def mkdirsTemp (fs : List String) : List String :=
  fs ++ tempDirs.filter fun d => !(decide (d ∈ fs))

/-- `_cleanup_temp_dir` (lines 234-237): `shutil.rmtree` removes the
staging root and everything below it. -/
def cleanupTempDir (fs : List String) : List String :=
  fs.filter fun p => !underTemp p

/-- Drop the last dot-extension of a file name (for `Path.stem` on names
with a proper extension). -/
def dropLastExt (cs : List Char) : List Char :=
  if '.' ∈ cs then ((cs.reverse.dropWhile fun c => !(decide (c = '.'))).tail).reverse
  else cs

/-- `Path(p).stem`: final path component without its last extension. -/
def pathStem (p : String) : String :=
  ⟨dropLastExt ((splitChar '/' p.data).getLastD [])⟩

/-- The conversion loop of `create_export_zip` (lines 186-190): tweets
are converted in order, the first raised exception propagates.  `n` is
the index used to draw this entry's fresh uuid from `uuidGen`. -/
def convertAll (md5hex : List Nat → String) (fileBytes : String → List Nat)
    (parseTS : String → Option String) (uuidGen : Nat → String)
    (files : List String) : Nat → List Tweet → Except PyError (List ConvertResult)
  | _, [] => .ok []
  | n, t :: ts =>
    match convert_tweet_to_entry md5hex fileBytes parseTS files (uuidGen n) t with
    | .error e => .error e
    | .ok r =>
      match convertAll md5hex fileBytes parseTS uuidGen files (n + 1) ts with
      | .error e => .error e
      | .ok rs => .ok (r :: rs)

/-- `create_export_zip` (lines 174-237) over the path-list filesystem
`fs0`: the staging directories are created with `exist_ok=True`;
conversion (which stages media copies) and packaging run inside
`try`; the `finally` clause removes the staging tree on success and on a
raised exception alike.  The zip file at `outputZip` is only created
after every tweet converted (the `zipfile.ZipFile(output_path, 'w')`
call comes after the loop), so a conversion error leaves no output.
Returns the outcome and the final filesystem. -/
def create_export_zip (md5hex : List Nat → String)
    (fileBytes : String → List Nat) (parseTS : String → Option String)
    (uuidGen : Nat → String) (files : List String) (fs0 : List String)
    (tweets : List Tweet) (outputZip : String) :
    Except PyError Unit × List String :=
  let fs1 := mkdirsTemp fs0
  match convertAll md5hex fileBytes parseTS uuidGen files 0 tweets with
  | .error e => (.error e, cleanupTempDir fs1)
  | .ok results =>
    let staged := ((results.map fun r => r.processed).flatten).map fun pm => pm.dest
    let jsonPath := "temp_export/" ++ pathStem outputZip ++ ".json"
    let fs2 := ((fs1 ++ staged) ++ [jsonPath]) ++ [outputZip]
    (.ok (), cleanupTempDir fs2)

/-- Specification-side resolver, written from the words of the claim: try
the three candidate names in order — exact lookup for the first two,
extension-wildcard glob (first matching file) for the third — and return
the first match, absence otherwise. -/
def findFirstSpec (files : List String) (n1 n2 globPat : String) :
    Option String :=
  if n1 ∈ files then some n1
  else if n2 ∈ files then some n2
  else files.find? fun f => globMatch globPat.data f.data

/-- Concrete stand-in for `hashlib.md5(...).hexdigest()` used by
witnesses. -/
def cMd5 : List Nat → String := fun _ => "ffff"

/-- Concrete stand-in for reading a file's bytes, used by witnesses. -/
def cBytes : String → List Nat := fun _ => [1, 2]

/-- Concrete stand-in for timestamp parsing used by witnesses: accepts
exactly one source-format timestamp. -/
def cParseTS : String → Option String := fun s =>
  if s = "Mon Jan 01 00:00:00 +0000 2020" then some "2020-01-01T00:00:00Z"
  else none

/-- Concrete uuid source used by witnesses. -/
def cUuid : Nat → String := fun _ => "ABCD"

/-- Concrete stand-in for `json.loads` used by witnesses: accepts exactly
the empty array. -/
def cJsonParse : String → Option (List Tweet) := fun s =>
  if s = "[]" then some [] else none

/-- A photo media entity as it appears inside a tweet (no `order` or
`id_str` key yet — the conversion loop writes those). -/
def cPhotoItem : MediaItem :=
  { media_url_https := some "https://pbs.twimg.com/media/pic.jpg"
    type := some "photo"
    id_str := none
    order := none
    sizes_large_h := some (.str "100")
    sizes_large_w := some (.str "200") }

/-- A concrete tweet with one photo entity. -/
def cTweet : Tweet :=
  { created_at := "Mon Jan 01 00:00:00 +0000 2020"
    full_text := "x"
    id_str := some "10"
    media := some [cPhotoItem]
    hashtags := none }

/-- Media directory listing for `cTweet`. -/
def cFiles : List String := ["10-pic.jpg"]

/-- A media item carrying its owning tweet id (as it looks after
tagging), for direct calls to the resolver and processor. -/
def cDirectItem : MediaItem :=
  { media_url_https := some "https://pbs.twimg.com/media/pic.jpg"
    type := some "photo"
    id_str := some "7"
    order := none
    sizes_large_h := some (.str "100")
    sizes_large_w := some (.str "200") }

/-- Media directory listing for `cDirectItem`. -/
def cDirectFiles : List String := ["7-pic.jpg"]

/-- The processed-media record `process_media cMd5 cBytes cDirectFiles
cDirectItem "d"` evaluates to. -/
def cProcessed : ProcessedMedia :=
  { meta :=
      { identifier := "ffff", date := "d", type := "jpg", md5 := "ffff"
        height := some 100, width := some 200 }
    moment_url := "![](dayone-moment://ffff)"
    dest := "temp_export/photos/ffff.jpg"
    destBytes := [1, 2] }

/-- Like `cDirectItem` but with the string `"0"` as large height — a
JSON value that is present, truthy for Python, and denotes zero. -/
def cZeroItem : MediaItem :=
  { media_url_https := some "https://pbs.twimg.com/media/pic.jpg"
    type := some "photo"
    id_str := some "7"
    order := none
    sizes_large_h := some (.str "0")
    sizes_large_w := some (.str "5") }

/-- A media entity missing the `media_url_https` key. -/
def cNoUrlItem : MediaItem :=
  { media_url_https := none, type := some "photo", id_str := some "7"
    order := none, sizes_large_h := none, sizes_large_w := none }

/-- A media entity missing the `type` key (its file does not exist in
`cDirectFiles` either, since its URL basename differs). -/
def cNoTypeItem : MediaItem :=
  { media_url_https := some "https://pbs.twimg.com/media/other.png"
    type := none, id_str := some "7"
    order := none, sizes_large_h := none, sizes_large_w := none }

/-- A tweet whose creation timestamp does not match the source format. -/
def cBadTweet : Tweet :=
  { created_at := "not-a-timestamp", full_text := "y", id_str := some "11"
    media := none, hashtags := none }

/-- The full conversion result of `cTweet` (used by witnesses). -/
def cConvertResult : ConvertResult :=
  { entry :=
      { creationDate := "2020-01-01T00:00:00Z", uuid := "ABCD"
        starred := false
        text := "x\n\n![](dayone-moment://ffff)", tags := []
        photos := [{ identifier := "ffff", date := "2020-01-01T00:00:00Z"
                     type := "jpg", md5 := "ffff"
                     height := some 100, width := some 200 }]
        videos := [] }
    taggedTweet :=
      { cTweet with
          media := some [{ cPhotoItem with order := some 0, id_str := some "10" }] }
    processed :=
      [{ meta := { identifier := "ffff", date := "2020-01-01T00:00:00Z"
                   type := "jpg", md5 := "ffff"
                   height := some 100, width := some 200 }
         moment_url := "![](dayone-moment://ffff)"
         dest := "temp_export/photos/ffff.jpg"
         destBytes := [1, 2] }] }

theorem strData_append (a b : String) : (a ++ b).data = a.data ++ b.data := rfl

theorem replaceFuel_invar (pat rep : List Char) :
    ∀ n m s, s.length ≤ n → s.length ≤ m →
      replaceFuel pat rep n s = replaceFuel pat rep m s := by
  intro n
  induction n with
  | zero =>
    intro m s hs _
    have : s = [] := List.eq_nil_of_length_eq_zero (Nat.le_zero.mp hs)
    subst this
    cases m <;> simp [replaceFuel]
  | succ n ih =>
    intro m s hs hm
    cases s with
    | nil => cases m <;> simp [replaceFuel]
    | cons c cs =>
      cases m with
      | zero => simp at hm
      | succ m' =>
        simp only [replaceFuel]
        by_cases hpre : (listIsPref pat (c :: cs) && !pat.isEmpty) = true
        · simp only [hpre, if_true]
          have hlen : (List.drop (pat.length - 1) cs).length ≤ cs.length :=
            by simp
          have h1 : (List.drop (pat.length - 1) cs).length ≤ n :=
            le_trans hlen (by simpa using hs)
          have h2 : (List.drop (pat.length - 1) cs).length ≤ m' :=
            le_trans hlen (by simpa using hm)
          rw [ih m' _ h1 h2]
        · rw [Bool.not_eq_true] at hpre
          have h1 : cs.length ≤ n := by simpa using hs
          have h2 : cs.length ≤ m' := by simpa using hm
          simp [hpre, ih m' _ h1 h2]

theorem pyReplaceData_cons_noMatch (pat rep : List Char) (c : Char)
    (cs : List Char) (hc : listIsPref pat (c :: cs) = false) :
    pyReplaceData pat rep (c :: cs) = c :: pyReplaceData pat rep cs := by
  simp [pyReplaceData, replaceFuel, hc]

theorem listIsPref_self_append (l t : List Char) :
    listIsPref l (l ++ t) = true := by
  induction l with
  | nil => simp [listIsPref]
  | cons a as ih => simpa [listIsPref] using ih

theorem pyReplaceData_head_match (pat rep s : List Char) (hne : pat ≠ []) :
    pyReplaceData pat rep (pat ++ s) = rep ++ pyReplaceData pat rep s := by
  cases pat with
  | nil => exact absurd rfl hne
  | cons p ps =>
    have hc : listIsPref (p :: ps) (p :: (ps ++ s)) = true :=
      listIsPref_self_append (p :: ps) s
    show replaceFuel (p :: ps) rep (p :: (ps ++ s)).length (p :: (ps ++ s)) = _
    rw [show (p :: (ps ++ s)).length = (ps ++ s).length + 1 from by simp]
    simp only [replaceFuel, hc, List.isEmpty, Bool.and_self, Bool.not_false,
      Bool.and_true, if_true]
    have hdrop : List.drop ((p :: ps).length - 1) (ps ++ s) = s := by
      simp only [List.length_cons, Nat.add_sub_cancel]
      exact List.drop_left ps s
    rw [hdrop]
    congr 1
    exact replaceFuel_invar _ _ _ _ _ (by simp) (le_refl _)

theorem pyReplaceData_id_of_no_occur (pat rep s : List Char) (_hne : pat ≠ [])
    (h : listHasInfix pat s = false) : pyReplaceData pat rep s = s := by
  induction s with
  | nil => simp [pyReplaceData, replaceFuel]
  | cons c cs ih =>
    simp only [listHasInfix, Bool.or_eq_false_iff] at h
    rw [pyReplaceData_cons_noMatch pat rep c cs h.1, ih h.2]

theorem String.ext_data {a b : String} (h : a.data = b.data) : a = b := by
  cases a; cases b; exact congrArg String.mk h

/-- The claim of spec §8 would require the video locator to appear in the
escaped serialized text as `dayone-moment:\/video\/{hash}`.  This closed
computation shows the opposite on a concrete document fragment: the
serialized text of an entry whose body holds the video token produced by
`process_media` still contains the unescaped `dayone-moment:/video/abc`
after the `DayOneJSONEncoder` transform, and does not contain the escaped
form the claim demands (the encoder only rewrites the double-slash photo
locator `dayone-moment://`). -/
theorem C1_counterexample :
    strContains (DayOneJSONEncoder.encode (serializeTextField (videoMomentUrl "abc")))
      "dayone-moment:/video/abc" = true ∧
    strContains (DayOneJSONEncoder.encode (serializeTextField (videoMomentUrl "abc")))
      "dayone-moment:\\/video\\/abc" = false := by
  constructor
  · rfl
  · rfl

theorem listHasInfix_of_strContains {s pat : String}
    (h : strContains s pat = false) : listHasInfix pat.data s.data = false := h

/-- Amended C1: after serialization and the `DayOneJSONEncoder` transform,
photo locators appear in the exact escaped literal form
`dayone-moment:\/\/{hash}`, while video locators appear in their original
unescaped form `dayone-moment:/video/{hash}` — the transform rewrites only
the double-slash locator.  The hypotheses say that the hash itself does
not contain the double-slash locator as a substring (true of every hex
digest). -/
theorem C1_escaping (h : String)
    (h1 : strContains (h ++ ")") "dayone-moment://" = false)
    (h2 : strContains (videoMomentUrl h) "dayone-moment://" = false) :
    DayOneJSONEncoder.encode (photoMomentUrl h) =
      "![](dayone-moment:\\/\\/" ++ h ++ ")" ∧
    DayOneJSONEncoder.encode (videoMomentUrl h) = videoMomentUrl h := by
  have hpatne : ("dayone-moment://" : String).data ≠ [] := by decide
  constructor
  · apply String.ext_data
    have e1 : (photoMomentUrl h).data =
        '!' :: '[' :: ']' :: '(' ::
          (("dayone-moment://" : String).data ++ (h.data ++ [')'])) := by
      show (("![](dayone-moment://" ++ h) ++ ")").data = _
      rw [strData_append, strData_append]
      rw [show ("![](dayone-moment://" : String).data =
            '!' :: '[' :: ']' :: '(' :: ("dayone-moment://" : String).data
          from rfl,
          show (")" : String).data = [')'] from rfl]
      simp [List.append_assoc]
    have e2 : ("![](dayone-moment:\\/\\/" ++ h ++ ")").data =
        '!' :: '[' :: ']' :: '(' ::
          (("dayone-moment:\\/\\/" : String).data ++ (h.data ++ [')'])) := by
      show (("![](dayone-moment:\\/\\/" ++ h) ++ ")").data = _
      rw [strData_append, strData_append]
      rw [show ("![](dayone-moment:\\/\\/" : String).data =
            '!' :: '[' :: ']' :: '(' :: ("dayone-moment:\\/\\/" : String).data
          from rfl,
          show (")" : String).data = [')'] from rfl]
      simp [List.append_assoc]
    show pyReplaceData ("dayone-moment://" : String).data
        ("dayone-moment:\\/\\/" : String).data (photoMomentUrl h).data = _
    rw [e1, e2]
    have n1 : listIsPref ("dayone-moment://" : String).data
        ('!' :: '[' :: ']' :: '(' ::
          (("dayone-moment://" : String).data ++ (h.data ++ [')']))) = false := rfl
    rw [pyReplaceData_cons_noMatch _ _ _ _ n1]
    have n2 : listIsPref ("dayone-moment://" : String).data
        ('[' :: ']' :: '(' ::
          (("dayone-moment://" : String).data ++ (h.data ++ [')']))) = false := rfl
    rw [pyReplaceData_cons_noMatch _ _ _ _ n2]
    have n3 : listIsPref ("dayone-moment://" : String).data
        (']' :: '(' ::
          (("dayone-moment://" : String).data ++ (h.data ++ [')']))) = false := rfl
    rw [pyReplaceData_cons_noMatch _ _ _ _ n3]
    have n4 : listIsPref ("dayone-moment://" : String).data
        ('(' ::
          (("dayone-moment://" : String).data ++ (h.data ++ [')']))) = false := rfl
    rw [pyReplaceData_cons_noMatch _ _ _ _ n4]
    rw [pyReplaceData_head_match _ _ _ hpatne]
    have hno : listHasInfix ("dayone-moment://" : String).data
        (h.data ++ [')']) = false := by
      have := listHasInfix_of_strContains h1
      rwa [show (h ++ ")").data = h.data ++ [')'] from rfl] at this
    rw [pyReplaceData_id_of_no_occur _ _ _ hpatne hno]
  · apply String.ext_data
    show pyReplaceData ("dayone-moment://" : String).data
        ("dayone-moment:\\/\\/" : String).data (videoMomentUrl h).data = _
    exact pyReplaceData_id_of_no_occur _ _ _ hpatne
      (listHasInfix_of_strContains h2)

/-- Witness for `C1_escaping` at the concrete hash `"abc"`. -/
theorem C1_escaping_witness :
    (strContains ("abc" ++ ")") "dayone-moment://" = false ∧
     strContains (videoMomentUrl "abc") "dayone-moment://" = false) ∧
    DayOneJSONEncoder.encode (photoMomentUrl "abc") =
      "![](dayone-moment:\\/\\/" ++ "abc" ++ ")" :=
  ⟨⟨by decide, by decide⟩, (C1_escaping "abc" (by decide) (by decide)).1⟩

theorem strAppend_nilR (s : String) : s ++ "" = s :=
  String.ext_data (by rw [strData_append]; exact List.append_nil _)

theorem strAppend_assoc (a b c : String) : (a ++ b) ++ c = a ++ (b ++ c) :=
  String.ext_data (by simp [strData_append, List.append_assoc])

theorem process_media_ok_some (md5hex : List Nat → String)
    (fileBytes : String → List Nat) (files : List String) (item : MediaItem)
    (dateStr : String) (r : ProcessedMedia)
    (h : process_media md5hex fileBytes files item dateStr = .ok (some r)) :
    ∃ path ty,
      find_media_file files item = .ok (some path) ∧
      item.type = some ty ∧
      r.meta.identifier = md5hex (fileBytes path) ∧
      r.meta.md5 = md5hex (fileBytes path) ∧
      r.destBytes = fileBytes path ∧
      ((pyTruthy item.sizes_large_h && pyTruthy item.sizes_large_w) = false →
        r.meta.height = none ∧ r.meta.width = none) ∧
      (∀ hv wv, item.sizes_large_h = some hv → item.sizes_large_w = some wv →
        hv.truthy = true → wv.truthy = true →
        r.meta.height = hv.toIntOpt ∧ r.meta.width = wv.toIntOpt) := by
  cases hf : find_media_file files item with
  | error e => unfold process_media at h; rw [hf] at h; simp at h
  | ok o =>
    cases o with
    | none => unfold process_media at h; rw [hf] at h; simp at h
    | some path =>
      cases ht : item.type with
      | none => unfold process_media at h; rw [hf, ht] at h; simp at h
      | some ty =>
        by_cases hc : (pyTruthy item.sizes_large_h && pyTruthy item.sizes_large_w) = true
        · cases hh : item.sizes_large_h with
          | none => rw [hh] at hc; simp [pyTruthy] at hc
          | some hv =>
            cases hw : item.sizes_large_w with
            | none => rw [hw] at hc; simp [pyTruthy] at hc
            | some wv =>
              rw [hh, hw] at hc
              simp only [pyTruthy, Bool.and_eq_true] at hc
              obtain ⟨htr, wtr⟩ := hc
              cases hhv : hv.toIntOpt with
              | none =>
                have key : process_media md5hex fileBytes files item dateStr =
                    .error .valueError := by
                  simp [process_media, hf, ht, hh, hw, pyTruthy, htr, wtr, hhv]
                rw [key] at h; simp at h
              | some hi =>
                cases hwv : wv.toIntOpt with
                | none =>
                  have key : process_media md5hex fileBytes files item dateStr =
                      .error .valueError := by
                    simp [process_media, hf, ht, hh, hw, pyTruthy, htr, wtr, hhv, hwv]
                  rw [key] at h; simp at h
                | some wi =>
                  have key : process_media md5hex fileBytes files item dateStr =
                      .ok (some
                        { meta :=
                            { identifier := md5hex (fileBytes path)
                              date := dateStr
                              type := if ty == "video" then "mp4" else "jpg"
                              md5 := md5hex (fileBytes path)
                              height := some hi
                              width := some wi }
                          moment_url :=
                            if ty == "video" then videoMomentUrl (md5hex (fileBytes path))
                            else photoMomentUrl (md5hex (fileBytes path))
                          dest :=
                            (if ty == "video" then "temp_export/videos/"
                             else "temp_export/photos/")
                              ++ md5hex (fileBytes path)
                              ++ (if ty == "video" then ".mp4" else ".jpg")
                          destBytes := fileBytes path }) := by
                    simp [process_media, hf, ht, hh, hw, pyTruthy, htr, wtr, hhv, hwv]
                  rw [key] at h
                  simp only [Except.ok.injEq, Option.some.injEq] at h
                  subst h
                  refine ⟨path, ty, rfl, rfl, rfl, rfl, rfl, ?_, ?_⟩
                  · intro hcf
                    simp [pyTruthy, htr, wtr] at hcf
                  · intro hv' wv' hh' hw' _ _
                    cases hh'; cases hw'
                    exact ⟨hhv.symm, hwv.symm⟩
        · rw [Bool.not_eq_true] at hc
          have key : process_media md5hex fileBytes files item dateStr =
              .ok (some
                { meta :=
                    { identifier := md5hex (fileBytes path)
                      date := dateStr
                      type := if ty == "video" then "mp4" else "jpg"
                      md5 := md5hex (fileBytes path)
                      height := none
                      width := none }
                  moment_url :=
                    if ty == "video" then videoMomentUrl (md5hex (fileBytes path))
                    else photoMomentUrl (md5hex (fileBytes path))
                  dest :=
                    (if ty == "video" then "temp_export/videos/"
                     else "temp_export/photos/")
                      ++ md5hex (fileBytes path)
                      ++ (if ty == "video" then ".mp4" else ".jpg")
                  destBytes := fileBytes path }) := by
            simp [process_media, hf, ht, hc]
          rw [key] at h
          simp only [Except.ok.injEq, Option.some.injEq] at h
          subst h
          refine ⟨path, ty, rfl, rfl, rfl, rfl, rfl, fun _ => ⟨rfl, rfl⟩, ?_⟩
          intro hv wv hh' hw' htr wtr
          rw [hh', hw'] at hc
          simp [pyTruthy, htr, wtr] at hc

/-- C2: for every successfully processed media item the metadata's
`identifier` equals its `md5` field and both equal the digest
(`hashlib.md5(...).hexdigest()`, the parameter `md5hex`) of the bytes of
the file that was read and copied (`shutil.copy2` is byte-faithful, so
`destBytes` — the staged copy's bytes — are those very bytes); hence two
items of the same run whose resolved files are byte-identical receive
equal identifiers, whatever tweets they come from. -/
theorem C2_content_hash (md5hex : List Nat → String)
    (fileBytes : String → List Nat) (files : List String)
    (i1 i2 : MediaItem) (d1 d2 p1 p2 : String) (r1 r2 : ProcessedMedia)
    (hf1 : find_media_file files i1 = .ok (some p1))
    (hf2 : find_media_file files i2 = .ok (some p2))
    (h1 : process_media md5hex fileBytes files i1 d1 = .ok (some r1))
    (h2 : process_media md5hex fileBytes files i2 d2 = .ok (some r2)) :
    (r1.meta.identifier = r1.meta.md5 ∧
     r1.meta.md5 = md5hex (fileBytes p1) ∧
     r1.destBytes = fileBytes p1) ∧
    (fileBytes p1 = fileBytes p2 → r1.meta.identifier = r2.meta.identifier) := by
  obtain ⟨q1, ty1, hq1, -, hid1, hmd1, hb1, -, -⟩ :=
    process_media_ok_some md5hex fileBytes files i1 d1 r1 h1
  obtain ⟨q2, ty2, hq2, -, hid2, hmd2, hb2, -, -⟩ :=
    process_media_ok_some md5hex fileBytes files i2 d2 r2 h2
  rw [hf1] at hq1
  rw [hf2] at hq2
  have e1 : q1 = p1 := by
    have := hq1
    simp only [Except.ok.injEq, Option.some.injEq] at this
    exact this.symm
  have e2 : q2 = p2 := by
    have := hq2
    simp only [Except.ok.injEq, Option.some.injEq] at this
    exact this.symm
  subst e1; subst e2
  refine ⟨⟨hid1.trans hmd1.symm, hmd1, hb1⟩, ?_⟩
  intro hbytes
  rw [hid1, hid2, hbytes]

/-- Witness for `C2_content_hash`: the same photo file resolved for the
same concrete item. -/
theorem C2_content_hash_witness :
    cProcessed.meta.identifier = cProcessed.meta.md5 ∧
    cProcessed.meta.md5 = cMd5 (cBytes "7-pic.jpg") :=
  ⟨((C2_content_hash cMd5 cBytes cDirectFiles cDirectItem cDirectItem "d" "d"
      "7-pic.jpg" "7-pic.jpg" cProcessed cProcessed rfl rfl rfl rfl).1).1,
   ((C2_content_hash cMd5 cBytes cDirectFiles cDirectItem cDirectItem "d" "d"
      "7-pic.jpg" "7-pic.jpg" cProcessed cProcessed rfl rfl rfl rfl).1).2.1⟩

/-- C9 counterexample: the claim says dimension fields are emitted only
when height and width are non-zero/non-null and are never 0.  The
archive stores sizes as JSON strings; the string `"0"` is truthy for
Python's `if height and width:`, so `process_media` emits
`height = 0` for this item — the metadata carries a zero dimension. -/
theorem C9_counterexample :
    process_media cMd5 cBytes cDirectFiles cZeroItem "d" =
      .ok (some
        { meta :=
            { identifier := "ffff", date := "d", type := "jpg", md5 := "ffff"
              height := some 0, width := some 5 }
          moment_url := "![](dayone-moment://ffff)"
          dest := "temp_export/photos/ffff.jpg"
          destBytes := [1, 2] }) ∧
    cZeroItem.sizes_large_h = some (.str "0") :=
  ⟨rfl, rfl⟩

/-- Amended C9: for every successfully processed media item, the
dimension fields are omitted (both `none`) whenever the `large` height
and width pair is not Python-truthy (missing, `0` as a number, or the
empty string), and when both values are present and truthy the fields
carry their `int(...)` conversions — so a string value `"0"`, being
truthy, yields a field equal to 0. -/
theorem C9_dims (md5hex : List Nat → String) (fileBytes : String → List Nat)
    (files : List String) (item : MediaItem) (dateStr : String)
    (r : ProcessedMedia)
    (hok : process_media md5hex fileBytes files item dateStr = .ok (some r)) :
    ((pyTruthy item.sizes_large_h && pyTruthy item.sizes_large_w) = false →
      r.meta.height = none ∧ r.meta.width = none) ∧
    (∀ hv wv, item.sizes_large_h = some hv → item.sizes_large_w = some wv →
      hv.truthy = true → wv.truthy = true →
      r.meta.height = hv.toIntOpt ∧ r.meta.width = wv.toIntOpt) := by
  obtain ⟨path, ty, -, -, -, -, -, hdim0, hdim1⟩ :=
    process_media_ok_some md5hex fileBytes files item dateStr r hok
  exact ⟨hdim0, hdim1⟩

/-- Witness for `C9_dims` at truthy concrete sizes. -/
theorem C9_dims_witness :
    cProcessed.meta.height = (PyVal.str "100").toIntOpt ∧
    cProcessed.meta.width = (PyVal.str "200").toIntOpt :=
  (C9_dims cMd5 cBytes cDirectFiles cDirectItem "d" cProcessed rfl).2
    (.str "100") (.str "200") rfl rfl rfl rfl

/-- C10 counterexample: the claim says a media entity lacking the `type`
key makes media processing raise `KeyError`.  For an entity that lacks
`type` but whose file cannot be resolved, `process_media` takes the
warn-and-skip path before ever reading `media_item['type']` and returns
normally — no exception is raised. -/
theorem C10_counterexample :
    (cNoTypeItem.type = none ∧ cNoTypeItem.media_url_https ≠ none) ∧
    process_media cMd5 cBytes cDirectFiles cNoTypeItem "d" = .ok none :=
  ⟨⟨rfl, by decide⟩, rfl⟩

/-- Amended C10: a media entity lacking `media_url_https` always raises
`KeyError` (inside `find_media_file`); one lacking `type` raises
`KeyError` only when a file was resolved for it; when resolution fails
the warn-and-skip path returns without touching `type`. -/
theorem C10_keyerrors (md5hex : List Nat → String)
    (fileBytes : String → List Nat) (files : List String) (item : MediaItem)
    (dateStr : String) :
    (item.media_url_https = none →
      process_media md5hex fileBytes files item dateStr =
        .error (.keyError "media_url_https")) ∧
    (∀ p, item.type = none → find_media_file files item = .ok (some p) →
      process_media md5hex fileBytes files item dateStr =
        .error (.keyError "type")) ∧
    (find_media_file files item = .ok none →
      process_media md5hex fileBytes files item dateStr = .ok none) := by
  refine ⟨?_, ?_, ?_⟩
  · intro hu
    simp [process_media, find_media_file, hu]
  · intro p ht hfind
    simp [process_media, hfind, ht]
  · intro hfind
    simp [process_media, hfind]

/-- Witness for `C10_keyerrors`: the missing-url entity raises the
`KeyError` for `media_url_https`. -/
theorem C10_keyerrors_witness :
    process_media cMd5 cBytes cDirectFiles cNoUrlItem "d" =
      .error (.keyError "media_url_https") :=
  (C10_keyerrors cMd5 cBytes cDirectFiles cNoUrlItem "d").1 rfl

theorem find_eq_filterHead {α : Type} (p : α → Bool) (l : List α) :
    l.find? p = (l.filter p).head? := by
  induction l with
  | nil => rfl
  | cons a as ih =>
    by_cases h : p a = true
    · rw [List.find?_cons_of_pos _ h, List.filter_cons_of_pos h]
      rfl
    · rw [List.find?_cons_of_neg _ h, List.filter_cons_of_neg h, ih]

theorem star_mem_mediaGlob3 (item : MediaItem) (url : String) :
    '*' ∈ (mediaGlob3 item url).data := by
  show '*' ∈ (((item.id_str.getD "" ++ "-") ++ stemOfName (basenameOfUrl url))
      ++ ".*").data
  rw [strData_append]
  exact List.mem_append.mpr (Or.inr (by decide))

/-- C6: `find_media_file` tries exactly the three candidate names
`{tweet_id}-{basename}`, `{basename}`, `{tweet_id}-{stem}.*` in this
order and returns the first hit — an exact existence test for the first
two, a glob (first matching file of the directory listing) for the third
— and absence (`None`) exactly when no file matches any of the three
patterns.  The function only consults the name listing `files`; its
signature has no access to file contents.  The hypotheses state that the
tweet id and URL basename contain no `*` of their own (so the code's
dynamic `'*' in name` dispatch takes the exact-lookup branch for the
first two names, as the claim describes). -/
theorem C6_resolver (files : List String) (item : MediaItem) (url : String)
    (hurl : item.media_url_https = some url)
    (h1 : '*' ∉ (mediaName1 item url).data)
    (h2 : '*' ∉ (mediaName2 url).data) :
    find_media_file files item =
      .ok (findFirstSpec files (mediaName1 item url) (mediaName2 url)
        (mediaGlob3 item url)) ∧
    (findFirstSpec files (mediaName1 item url) (mediaName2 url)
        (mediaGlob3 item url) = none ↔
      mediaName1 item url ∉ files ∧ mediaName2 url ∉ files ∧
        ∀ f ∈ files, globMatch (mediaGlob3 item url).data f.data = false) := by
  constructor
  · simp only [find_media_file, hurl, mediaFileNames]
    congr 1
    simp only [tryNames, findFirstSpec]
    rw [if_neg h1, if_neg h2, if_pos (star_mem_mediaGlob3 item url)]
    by_cases hm1 : mediaName1 item url ∈ files
    · simp [hm1]
    · rw [if_neg hm1, if_neg hm1]
      by_cases hm2 : mediaName2 url ∈ files
      · simp [hm2]
      · rw [if_neg hm2, if_neg hm2, find_eq_filterHead]
        cases (files.filter fun f =>
            globMatch (mediaGlob3 item url).data f.data).head? <;> rfl
  · simp only [findFirstSpec]
    by_cases hm1 : mediaName1 item url ∈ files
    · simp [hm1]
    · by_cases hm2 : mediaName2 url ∈ files
      · simp [hm1, hm2]
      · simp [hm1, hm2, List.find?_eq_none]

/-- Witness for `C6_resolver` on a concrete item and listing. -/
theorem C6_resolver_witness :
    find_media_file cDirectFiles cDirectItem =
      .ok (findFirstSpec cDirectFiles
        (mediaName1 cDirectItem "https://pbs.twimg.com/media/pic.jpg")
        (mediaName2 "https://pbs.twimg.com/media/pic.jpg")
        (mediaGlob3 cDirectItem "https://pbs.twimg.com/media/pic.jpg")) :=
  (C6_resolver cDirectFiles cDirectItem "https://pbs.twimg.com/media/pic.jpg"
    rfl (by decide) (by decide)).1

/-- C4: `load_twitter_data` fails with the missing-file error exactly
when `data/tweets.js` is absent, fails with the JSON decode error
exactly when the text left after stripping the assignment wrapper (a
non-strippable wrapper leaves the text unchanged and hence not valid
JSON) does not parse, and on success merely returns the parsed array —
the model's only effect.  The code raises the builtin
`FileNotFoundError` and `json.JSONDecodeError`; the specification's
`ArchiveNotFoundError` and `ArchiveFormatError` are its names for these
two failure modes. -/
theorem C4_load (jsonParse : String → Option (List Tweet))
    (tweetsFile : Option String) :
    (load_twitter_data jsonParse tweetsFile = .error .fileNotFoundError ↔
      tweetsFile = none) ∧
    (∀ c, tweetsFile = some c →
      ((load_twitter_data jsonParse tweetsFile = .error .jsonDecodeError ↔
          jsonParse (stripTweetsWrapper (pyStrip c)) = none) ∧
       (∀ ts, load_twitter_data jsonParse tweetsFile = .ok ts ↔
          jsonParse (stripTweetsWrapper (pyStrip c)) = some ts))) := by
  cases tweetsFile with
  | none =>
    refine ⟨by simp [load_twitter_data], ?_⟩
    intro c hc
    cases hc
  | some c =>
    constructor
    · cases hp : jsonParse (stripTweetsWrapper (pyStrip c)) <;>
        simp [load_twitter_data, hp]
    · intro c' hc'
      cases hc'
      cases hp : jsonParse (stripTweetsWrapper (pyStrip c)) <;>
        constructor <;> simp [load_twitter_data, hp]

/-- Witness for `C4_load`: a wrapped empty archive loads successfully,
returning the parsed (empty) array. -/
theorem C4_load_witness :
    load_twitter_data cJsonParse (some "window.YTD.tweets.part0 = []") =
      .ok [] :=
  (((C4_load cJsonParse (some "window.YTD.tweets.part0 = []")).2
    "window.YTD.tweets.part0 = []" rfl).2 []).mpr (by decide)

theorem convert_ok_media (md5hex : List Nat → String)
    (fileBytes : String → List Nat) (parseTS : String → Option String)
    (files : List String) (uuid : String) (t : Tweet) (ms : List MediaItem)
    (r : ConvertResult) (hm : t.media = some ms)
    (hok : convert_tweet_to_entry md5hex fileBytes parseTS files uuid t = .ok r) :
    ∃ dateStr pms,
      parseTS t.created_at = some dateStr ∧
      processAll md5hex fileBytes files dateStr
        (tagMedia (t.id_str.getD "") ms) = .ok pms ∧
      r.entry.text =
        pyJoin "\n\n" (t.full_text :: pms.map fun pm => pm.moment_url) ∧
      r.processed = pms ∧
      r.taggedTweet = { t with media := some (tagMedia (t.id_str.getD "") ms) } := by
  cases hts : parseTS t.created_at with
  | none =>
    have key : convert_tweet_to_entry md5hex fileBytes parseTS files uuid t =
        .error .timestampParseError := by
      simp [convert_tweet_to_entry, hts]
    rw [key] at hok; simp at hok
  | some dateStr =>
    cases hp : processAll md5hex fileBytes files dateStr
        (tagMedia (t.id_str.getD "") ms) with
    | error e =>
      have key : convert_tweet_to_entry md5hex fileBytes parseTS files uuid t =
          .error e := by
        simp [convert_tweet_to_entry, hts, hm, hp]
      rw [key] at hok; simp at hok
    | ok pms =>
      have key : convert_tweet_to_entry md5hex fileBytes parseTS files uuid t =
          .ok { entry :=
                  { creationDate := dateStr, uuid := uuid, starred := false
                    text := pyJoin "\n\n"
                      (t.full_text :: pms.map fun pm => pm.moment_url)
                    tags := t.hashtags.getD []
                    photos := (pms.filter fun pm =>
                      !(pm.meta.type == "mp4")).map fun pm => pm.meta
                    videos := (pms.filter fun pm =>
                      pm.meta.type == "mp4").map fun pm => pm.meta }
                taggedTweet :=
                  { t with media := some (tagMedia (t.id_str.getD "") ms) }
                processed := pms } := by
        simp [convert_tweet_to_entry, hts, hm, hp]
      rw [key] at hok
      simp only [Except.ok.injEq] at hok
      subst hok
      exact ⟨dateStr, pms, rfl, hp, rfl, rfl, rfl⟩

theorem pyJoin_cons (sep x : String) (l : List String) :
    pyJoin sep (x :: l) = x ++ concatStr (l.map fun tok => sep ++ tok) := by
  induction l generalizing x with
  | nil => simp [pyJoin, concatStr, strAppend_nilR]
  | cons y ys ih =>
    show x ++ sep ++ pyJoin sep (y :: ys) = _
    rw [ih y]
    simp [concatStr, strAppend_assoc]

/-- C5 counterexample: the claim requires every inline token to be both
preceded and followed by a blank line.  For the concrete tweet `cTweet`
(text `"x"`, one resolved photo) the produced entry text is
`"x\n\n<token>"` — the final token is not followed by a blank line, so
the text differs from the claim's shape `"x\n\n<token>\n\n"`
(`'\n\n'.join` inserts separators only between parts). -/
theorem C5_counterexample :
    (convert_tweet_to_entry cMd5 cBytes cParseTS cFiles "ABCD" cTweet).map
        (fun r => r.entry.text) = .ok "x\n\n![](dayone-moment://ffff)" ∧
    ("x\n\n![](dayone-moment://ffff)" : String) ≠
      "x" ++ "\n\n" ++ "![](dayone-moment://ffff)" ++ "\n\n" :=
  ⟨rfl, by decide⟩

/-- Amended C5: each successfully resolved token is appended after the
original tweet text in declared media order, each preceded by exactly one
blank line (which also separates consecutive media blocks by exactly one
blank line); the final token ends the text without a trailing blank
line. -/
theorem C5_text_layout (md5hex : List Nat → String)
    (fileBytes : String → List Nat) (parseTS : String → Option String)
    (files : List String) (uuid : String) (t : Tweet) (ms : List MediaItem)
    (r : ConvertResult) (hm : t.media = some ms)
    (hok : convert_tweet_to_entry md5hex fileBytes parseTS files uuid t = .ok r) :
    r.entry.text = t.full_text ++
      concatStr ((r.processed.map fun pm => pm.moment_url).map
        fun tok => "\n\n" ++ tok) := by
  obtain ⟨dateStr, pms, -, -, htext, hproc, -⟩ :=
    convert_ok_media md5hex fileBytes parseTS files uuid t ms r hm hok
  rw [htext, hproc, pyJoin_cons]

/-- Witness for `C5_text_layout` on the concrete tweet. -/
theorem C5_text_layout_witness :
    cConvertResult.entry.text = cTweet.full_text ++
      concatStr ((cConvertResult.processed.map fun pm => pm.moment_url).map
        fun tok => "\n\n" ++ tok) :=
  C5_text_layout cMd5 cBytes cParseTS cFiles "ABCD" cTweet [cPhotoItem]
    cConvertResult rfl rfl

theorem tagMediaFrom_get (tid : String) :
    ∀ (ms : List MediaItem) (k i : Nat) (m : MediaItem), ms.get? i = some m →
      (tagMediaFrom tid k ms).get? i =
        some { m with order := some (k + i), id_str := some tid } := by
  intro ms
  induction ms with
  | nil => intro k i m h; simp [List.get?] at h
  | cons a as ih =>
    intro k i m h
    cases i with
    | zero =>
      simp only [List.get?, Option.some.injEq] at h
      subst h
      simp [tagMediaFrom, List.get?]
    | succ i' =>
      simp only [List.get?] at h
      have h2 := ih (k + 1) i' m h
      have e : k + 1 + i' = k + (i' + 1) := by omega
      rw [e] at h2
      simp only [tagMediaFrom, List.get?]
      exact h2

/-- C8 counterexample: the claim says no pipeline stage mutates a loaded
tweet record.  Converting the concrete tweet `cTweet` writes the keys
`order` and `id_str` into its nested media entity, so the tweet's media
list after conversion differs from the loaded one. -/
theorem C8_counterexample :
    (convert_tweet_to_entry cMd5 cBytes cParseTS cFiles "ABCD" cTweet).map
        (fun r => r.taggedTweet.media) =
      .ok (some [{ cPhotoItem with order := some 0, id_str := some "10" }]) ∧
    some [{ cPhotoItem with order := some 0, id_str := some "10" }] ≠
      cTweet.media :=
  ⟨rfl, by decide⟩

/-- Amended C8: entry conversion is the one stage that writes into loaded
tweet records, and it writes exactly the keys `order` (the declared
ordinal) and `id_str` (the owning tweet's id) of each media entity; every
other field of the tweet and of its media entities is preserved. -/
theorem C8_tagging (md5hex : List Nat → String)
    (fileBytes : String → List Nat) (parseTS : String → Option String)
    (files : List String) (uuid : String) (t : Tweet) (ms : List MediaItem)
    (r : ConvertResult) (hm : t.media = some ms)
    (hok : convert_tweet_to_entry md5hex fileBytes parseTS files uuid t = .ok r) :
    r.taggedTweet = { t with media := some (tagMedia (t.id_str.getD "") ms) } ∧
    (∀ i m, ms.get? i = some m →
      (tagMedia (t.id_str.getD "") ms).get? i =
        some { m with order := some i, id_str := some (t.id_str.getD "") }) := by
  obtain ⟨dateStr, pms, -, -, -, -, htag⟩ :=
    convert_ok_media md5hex fileBytes parseTS files uuid t ms r hm hok
  refine ⟨htag, ?_⟩
  intro i m h
  have := tagMediaFrom_get (t.id_str.getD "") ms 0 i m h
  simpa [tagMedia] using this

/-- Witness for `C8_tagging` on the concrete tweet. -/
theorem C8_tagging_witness :
    cConvertResult.taggedTweet =
      { cTweet with media := some (tagMedia "10" [cPhotoItem]) } :=
  (C8_tagging cMd5 cBytes cParseTS cFiles "ABCD" cTweet [cPhotoItem]
    cConvertResult rfl rfl).1

theorem cleanup_mem {fs : List String} {p : String}
    (h : p ∈ cleanupTempDir fs) : p ∈ fs ∧ underTemp p = false := by
  simp only [cleanupTempDir, List.mem_filter, Bool.not_eq_true'] at h
  exact h

theorem underTemp_tempDirs : ∀ d ∈ tempDirs, underTemp d = true := by decide

theorem convert_error_of_badTS (md5hex : List Nat → String)
    (fileBytes : String → List Nat) (parseTS : String → Option String)
    (files : List String) (uuid : String) (t : Tweet)
    (h : parseTS t.created_at = none) :
    convert_tweet_to_entry md5hex fileBytes parseTS files uuid t =
      .error .timestampParseError := by
  simp [convert_tweet_to_entry, h]

theorem convertAll_append_error (md5hex : List Nat → String)
    (fileBytes : String → List Nat) (parseTS : String → Option String)
    (uuidGen : Nat → String) (files : List String) :
    ∀ (xs : List Tweet) (n : Nat) (ys : List Tweet) (rs : List ConvertResult)
      (e : PyError),
      convertAll md5hex fileBytes parseTS uuidGen files n xs = .ok rs →
      convertAll md5hex fileBytes parseTS uuidGen files (n + xs.length) ys =
        .error e →
      convertAll md5hex fileBytes parseTS uuidGen files n (xs ++ ys) =
        .error e := by
  intro xs
  induction xs with
  | nil =>
    intro n ys rs e _ hy
    simpa using hy
  | cons t ts ih =>
    intro n ys rs e hx hy
    cases hc : convert_tweet_to_entry md5hex fileBytes parseTS files
        (uuidGen n) t with
    | error e' =>
      have hstep : convertAll md5hex fileBytes parseTS uuidGen files n
          (t :: ts) = .error e' := by
        simp [convertAll, hc]
      rw [hstep] at hx; simp at hx
    | ok r =>
      cases hts2 : convertAll md5hex fileBytes parseTS uuidGen files (n + 1)
          ts with
      | error e' =>
        have hstep : convertAll md5hex fileBytes parseTS uuidGen files n
            (t :: ts) = .error e' := by
          simp [convertAll, hc, hts2]
        rw [hstep] at hx; simp at hx
      | ok rs' =>
        have hy' : convertAll md5hex fileBytes parseTS uuidGen files
            ((n + 1) + ts.length) ys = .error e := by
          have e2 : (n + 1) + ts.length = n + (t :: ts).length := by
            simp; omega
          rw [e2]; exact hy
        have tail := ih (n + 1) ys rs' e hts2 hy'
        show convertAll md5hex fileBytes parseTS uuidGen files n
          (t :: (ts ++ ys)) = .error e
        simp [convertAll, hc, tail]

/-- C3 counterexample: the claim requires the staging tree to be created
fresh, containing no pre-existing files, before processing begins.  The
code creates the directories with `exist_ok=True` and never clears them:
on a filesystem already holding `temp_export/photos/stale.jpg`, that file
is still present under the staging tree after the directory-creation
step, although it is not one of the three created directories. -/
theorem C3_counterexample :
    "temp_export/photos/stale.jpg" ∈
      mkdirsTemp ["temp_export/photos/stale.jpg"] ∧
    underTemp "temp_export/photos/stale.jpg" = true ∧
    "temp_export/photos/stale.jpg" ∉ tempDirs := by
  refine ⟨?_, by decide, by decide⟩
  exact List.mem_append.mpr (Or.inl (by decide))

/-- Amended C3: `create_export_zip` creates the staging directories if
missing while retaining any pre-existing content (`exist_ok=True`), and
the `finally` clause removes the whole staging tree on every completion
of the call — normal return and raised exception alike — so the final
filesystem holds no path of the staging tree. -/
theorem C3_cleanup (md5hex : List Nat → String)
    (fileBytes : String → List Nat) (parseTS : String → Option String)
    (uuidGen : Nat → String) (files fs0 : List String)
    (tweets : List Tweet) (outZip : String) :
    (∀ p ∈ fs0, p ∈ mkdirsTemp fs0) ∧
    (∀ d ∈ tempDirs, d ∈ mkdirsTemp fs0) ∧
    (∀ p ∈ (create_export_zip md5hex fileBytes parseTS uuidGen files fs0
        tweets outZip).2, underTemp p = false) := by
  refine ⟨?_, ?_, ?_⟩
  · intro p hp
    exact List.mem_append.mpr (Or.inl hp)
  · intro d hd
    by_cases hm : d ∈ fs0
    · exact List.mem_append.mpr (Or.inl hm)
    · refine List.mem_append.mpr (Or.inr ?_)
      refine List.mem_filter.mpr ⟨hd, ?_⟩
      simp [hm]
  · intro p hp
    simp only [create_export_zip] at hp
    split at hp <;> exact (cleanup_mem (by simpa using hp)).2

/-- Witness for `C3_cleanup`: in a run over an empty tweet list with one
unrelated pre-existing file, the produced zip path survives cleanup and
is not a staging path. -/
theorem C3_cleanup_witness : underTemp "out.zip" = false :=
  (C3_cleanup cMd5 cBytes cParseTS cUuid cFiles ["keep.txt"] [] "out.zip").2.2
    "out.zip" (by decide)

/-- C7: if a tweet's creation timestamp does not match the fixed source
format (all tweets before it converting normally), the strptime failure
propagates out of `convert_tweet_to_entry`, `create_export_zip` aborts
with that error, and no output is written: the output zip path is absent
from the final filesystem (it had no pre-existing file there) and the
staging tree, json file included, is removed. -/
theorem C7_abort (md5hex : List Nat → String)
    (fileBytes : String → List Nat) (parseTS : String → Option String)
    (uuidGen : Nat → String) (files fs0 : List String) (outZip : String)
    (pre rest : List Tweet) (bad : Tweet) (rs : List ConvertResult)
    (hpre : convertAll md5hex fileBytes parseTS uuidGen files 0 pre = .ok rs)
    (hbad : parseTS bad.created_at = none)
    (hout : outZip ∉ fs0) :
    (create_export_zip md5hex fileBytes parseTS uuidGen files fs0
        (pre ++ bad :: rest) outZip).1 = .error .timestampParseError ∧
    outZip ∉ (create_export_zip md5hex fileBytes parseTS uuidGen files fs0
        (pre ++ bad :: rest) outZip).2 ∧
    ∀ p ∈ (create_export_zip md5hex fileBytes parseTS uuidGen files fs0
        (pre ++ bad :: rest) outZip).2, underTemp p = false := by
  have hb := convert_error_of_badTS md5hex fileBytes parseTS files
    (uuidGen pre.length) bad hbad
  have hbadall : convertAll md5hex fileBytes parseTS uuidGen files
      (0 + pre.length) (bad :: rest) = .error .timestampParseError := by
    simp [convertAll, hb]
  have hall : convertAll md5hex fileBytes parseTS uuidGen files 0
      (pre ++ bad :: rest) = .error .timestampParseError :=
    convertAll_append_error md5hex fileBytes parseTS uuidGen files pre 0
      (bad :: rest) rs _ hpre hbadall
  have hres : create_export_zip md5hex fileBytes parseTS uuidGen files fs0
      (pre ++ bad :: rest) outZip =
      (.error .timestampParseError, cleanupTempDir (mkdirsTemp fs0)) := by
    simp [create_export_zip, hall]
  rw [hres]
  refine ⟨rfl, ?_, ?_⟩
  · intro hmem
    obtain ⟨hin, hnot⟩ := cleanup_mem hmem
    rcases List.mem_append.mp hin with h | h
    · exact hout h
    · have ht : underTemp outZip = true :=
        underTemp_tempDirs outZip (List.mem_of_mem_filter h)
      rw [ht] at hnot
      exact absurd hnot (by decide)
  · intro p hp
    exact (cleanup_mem hp).2

/-- Witness for `C7_abort`: a single tweet with a malformed timestamp. -/
theorem C7_abort_witness :
    (create_export_zip cMd5 cBytes cParseTS cUuid cFiles []
        ([] ++ cBadTweet :: []) "out.zip").1 = .error .timestampParseError :=
  (C7_abort cMd5 cBytes cParseTS cUuid cFiles [] "out.zip" [] [] cBadTweet []
    rfl rfl (by decide)).1
